import Mathlib

/-!
Verification development for the personal-finance tracker.

The development shallowly embeds the data-access layer and the
aggregation logic of the application:

* `src/lib/firestore-service.ts` — the document-store service
  (`transactionService`, `budgetGoalService`, ...);
* the database-context facade (`DatabaseProvider`) that switches between
  the relational backend and the document backend;
* `src/components/transactions/transaction-form.tsx` — the transaction
  form (zod validation schema, submit handler) and the transactions
  table with its client-side pagination emulation;
* `src/components/budget/budget-summary.tsx` and the insights component.

Monetary amounts are modelled as exact rationals; a JavaScript division
whose result is not finite (division by zero) is modelled as `none`.
Backend calls are modelled by their results: a fallible call is a value
of `Except String`, and each facade operation is a function from the
backend result to the outcome the user observes (toast flag plus
returned value).
-/

/-- A transaction record, mirroring the `Transaction` type of
`src/lib/firestore-service.ts` (fields `id`, `userId`, `title`,
`amount`, `categoryId`, `transactionDate`, `notes`); the transaction
date is modelled as an integer timestamp. -/
structure Transaction where
  id : String
  userId : String
  title : String
  amount : ℚ
  categoryId : String
  transactionDate : Int
  notes : Option String
deriving DecidableEq

/-- A category record, mirroring the `Category` type of
`src/lib/firestore-service.ts`; `ctype` models the `type` field, whose
values are the income and expense markers. -/
structure Category where
  id : String
  name : String
  ctype : String
deriving DecidableEq

/-- A budget goal record, mirroring the `BudgetGoal` type of
`src/lib/firestore-service.ts` (the fields the progress computation
reads). -/
structure BudgetGoal where
  id : String
  categoryId : String
  amount : ℚ
deriving DecidableEq

/-- The options object accepted by
`transactionService.getTransactions` (`categoryId`, `startDate`,
`endDate`, `limit`, `lastDoc`). -/
structure FsQueryOptions where
  categoryId : Option String := none
  startDate : Option Int := none
  endDate : Option Int := none
  queryLimit : Option Nat := none
  lastDoc : Option Transaction := none

/-- Firestore `startAfter(doc)`: the results resume strictly after the
position of `doc` in the ordered result stream; with no cursor the
stream is returned whole. -/
def startAfterDoc (l : List Transaction) (cursor : Option Transaction) : List Transaction :=
  match cursor with
  | none => l
  | some d => (l.dropWhile (fun t => t ≠ d)).drop 1

/-- The `where` clauses of `transactionService.getTransactions`
(`categoryId ==`, `transactionDate >= startDate`,
`transactionDate <= endDate`) applied to the ordered stream. -/
def applyFilters (ordered : List Transaction) (o : FsQueryOptions) : List Transaction :=
  let l1 := match o.categoryId with
    | none => ordered
    | some c => ordered.filter (fun t => t.categoryId = c)
  let l2 := match o.startDate with
    | none => l1
    | some s => l1.filter (fun t => s ≤ t.transactionDate)
  match o.endDate with
  | none => l2
  | some e => l2.filter (fun t => t.transactionDate ≤ e)

/-- `transactionService.getTransactions`: the ordered stream (the query
orders by `transactionDate` descending; `ordered` is that stream for
the requesting user) is filtered, resumed after the cursor, and capped
by the limit; the function returns the page together with the last
document of the page (the `lastDoc` accumulated by the `forEach`),
which is `none` for an empty page. -/
def fsGetTransactions (ordered : List Transaction) (o : FsQueryOptions) :
    List Transaction × Option Transaction :=
  let filtered := applyFilters ordered o
  let afterCursor := startAfterDoc filtered o.lastDoc
  let page := match o.queryLimit with
    | none => afterCursor
    | some k => afterCursor.take k
  (page, page.getLast?)

/-- `pageSize` of the transactions table. -/
def pageSize : Nat := 10

/-- The replay loop of `TransactionsTable.fetchTransactions` for a page
requested without a cached cursor: `replayLoop ordered k` is the value
of `tempLastDoc` after `k` iterations of the loop
`for (let i = 1; i < currentPage; i++)`, each iteration issuing a query
of limit `pageSize` chained after the previous cursor.  When a query
returns no documents its `lastDoc` is undefined and the next query
restarts from the beginning, exactly as in the source. -/
def replayLoop (ordered : List Transaction) : Nat → Option Transaction
  | 0 => none
  | k + 1 =>
    (fsGetTransactions ordered { queryLimit := some pageSize, lastDoc := replayLoop ordered k }).2

/-- The page of transactions fetched by
`TransactionsTable.fetchTransactions` for page number `page` requested
without a cached cursor and with the default filters (no category, no
date range): for `page > 1` the loop replays `page - 1` queries and the
final query starts after the resulting cursor. -/
def fetchTransactionsPage (ordered : List Transaction) (page : Nat) : List Transaction :=
  if 1 < page then
    (fsGetTransactions ordered
      { queryLimit := some pageSize, lastDoc := replayLoop ordered (page - 1) }).1
  else
    (fsGetTransactions ordered { queryLimit := some pageSize }).1

/-- The summary fold shared in shape by
`transactionService.getTransactionSummary` and the facade
`getFinancialSummary`: a `forEach` over the fetched transactions that
adds a positive amount to `income` and the absolute value of any other
amount to `expenses`. -/
def summaryTotals (txs : List Transaction) : ℚ × ℚ :=
  txs.foldl
    (fun s t => if t.amount > 0 then (s.1 + t.amount, s.2) else (s.1, s.2 + |t.amount|))
    (0, 0)

/-- Result record `{ income, expenses, balance }`. -/
structure FinancialSummary where
  income : ℚ
  expenses : ℚ
  balance : ℚ
deriving DecidableEq

/-- `transactionService.getTransactionSummary` applied to the list of
transactions fetched by `getTransactions`: `balance` is
`income - expenses`. -/
def getTransactionSummary (txs : List Transaction) : FinancialSummary :=
  let s := summaryTotals txs
  { income := s.1, expenses := s.2, balance := s.1 - s.2 }

/-- The totals computed inside the facade `getFinancialSummary` over
the transactions fetched for the date range (same fold as the service
summary, written at its own source site in the database context). -/
def getFinancialSummaryCalc (txs : List Transaction) : FinancialSummary :=
  let s := txs.foldl
    (fun s t => if t.amount > 0 then (s.1 + t.amount, s.2) else (s.1, s.2 + |t.amount|))
    (0, 0)
  { income := s.1, expenses := s.2, balance := s.1 - s.2 }

/-- The two backend modes of the database context. -/
inductive DatabaseType where
  | supabase
  | firestore
deriving DecidableEq

/-- Shape of the value the facade `getTransactions` returns to its
callers. -/
inductive TxResultShape where
  | recordList
  | pageObject
deriving DecidableEq

/-- What the facade `getTransactions` hands back per mode: the
relational branch returns `data || []` (an array of records), while the
document branch returns
`firestoreService.transactionService.getTransactions(...)` unchanged,
which is the object `{ transactions, lastDoc }`. -/
def facadeGetTransactionsShape : DatabaseType → TxResultShape
  | .supabase => .recordList
  | .firestore => .pageObject

/-- The methods `transactionService` of
`src/lib/firestore-service.ts` actually defines. -/
def transactionServiceMethods : List String :=
  ["getTransactions", "getTransaction", "addTransaction", "updateTransaction",
   "deleteTransaction", "getTransactionSummary"]

/-- The methods `categoryService` actually defines. -/
def categoryServiceMethods : List String :=
  ["getCategories", "getCategory", "addCategory", "updateCategory", "deleteCategory"]

/-- The methods `budgetGoalService` actually defines. -/
def budgetGoalServiceMethods : List String :=
  ["getBudgetGoals", "getBudgetGoal", "addBudgetGoal", "updateBudgetGoal",
   "deleteBudgetGoal", "getBudgetProgress"]

/-- The methods `userProfileService` actually defines. -/
def userProfileServiceMethods : List String :=
  ["getProfile", "updateProfile"]

/-- The `(service, method)` pairs the document-store branches of the
facade invoke on `firestoreService` (the CRUD operations of
`DatabaseProvider`). -/
def facadeFirestoreCalls : List (String × String) :=
  [("transactionService", "getTransactions"), ("transactionService", "getTransaction"),
   ("transactionService", "createTransaction"), ("transactionService", "updateTransaction"),
   ("transactionService", "deleteTransaction"),
   ("categoryService", "getCategories"), ("categoryService", "getCategory"),
   ("categoryService", "createCategory"), ("categoryService", "updateCategory"),
   ("categoryService", "deleteCategory"),
   ("budgetGoalService", "getBudgetGoals"), ("budgetGoalService", "getBudgetGoal"),
   ("budgetGoalService", "createBudgetGoal"), ("budgetGoalService", "updateBudgetGoal"),
   ("budgetGoalService", "deleteBudgetGoal"),
   ("userProfileService", "getUserProfile"), ("userProfileService", "updateUserProfile")]

/-- The keys of the `value` object the `DatabaseProvider` places in the
context (lines 1064-1087 of the provider). -/
def databaseContextKeys : List String :=
  ["databaseType", "setDatabaseType", "isLoading",
   "getTransactions", "getTransaction", "createTransaction", "updateTransaction",
   "deleteTransaction",
   "getCategories", "getCategory", "createCategory", "updateCategory", "deleteCategory",
   "getBudgetGoals", "getBudgetGoal", "createBudgetGoal", "updateBudgetGoal",
   "deleteBudgetGoal",
   "getUserProfile", "updateUserProfile", "getFinancialSummary", "migrateData"]

/-- The sign adjustment of `TransactionForm.onSubmit`: an amount for an
expense category is forced negative, any other amount is forced
positive. -/
def onSubmitAmount (categoryType : String) (entered : ℚ) : ℚ :=
  if categoryType = "expense" then -|entered| else |entered|

/-- The transaction payload `onSubmit` hands to the create call. -/
structure TransactionPayload where
  title : String
  amount : ℚ
  categoryId : String
  transactionDate : Int
  notes : Option String
deriving DecidableEq

/-- The `transactionData` object built by `TransactionForm.onSubmit`
from the form values and the selected category. -/
def buildTransactionData (c : Category) (title : String) (entered : ℚ) (tdate : Int)
    (notes : Option String) : TransactionPayload :=
  { title := title, amount := onSubmitAmount c.ctype entered, categoryId := c.id,
    transactionDate := tdate, notes := notes }

/-- Outcome of a form submission: either the create function obtained
from the database context is invoked with the payload and the success
toast is shown, or the catch branch runs and a destructive toast is
shown with nothing created. -/
inductive SubmitOutcome where
  | created (payload : TransactionPayload)
  | errorToast
deriving DecidableEq

/-- `TransactionForm.onSubmit`: the selected category is looked up in
the loaded categories; the handler then calls the binding
`addTransaction` destructured from `useDatabase()` — a call that throws
(and is caught, showing the destructive toast) when the context value
carries no such key. -/
def onSubmitOutcome (contextKeys : List String) (categories : List Category)
    (categoryId : String) (title : String) (entered : ℚ) (tdate : Int)
    (notes : Option String) : SubmitOutcome :=
  match categories.find? (fun c => c.id = categoryId) with
  | none => .errorToast
  | some c =>
    if ("addTransaction" ∈ contextKeys) then
      .created (buildTransactionData c title entered tdate notes)
    else
      .errorToast

/-- Input to the transaction form as the zod schema sees it: `title`
and optional `notes` strings, the amount field as the number the string
converts to (`none` when `Number(val)` is NaN), and the category and
date fields, which are absent until supplied. -/
structure TransactionFormInput where
  title : String
  amount : Option ℚ
  category_id : Option String
  transaction_date : Option Int
  notes : Option String

/-- The `formSchema` of `transaction-form.tsx`: title between 2 and 100
characters; the amount string must convert to a number that is nonzero
and at most 1000000; `category_id` and `transaction_date` are required;
`notes`, when present, is at most 500 characters. -/
def formSchemaAccepts (i : TransactionFormInput) : Bool :=
  decide (2 ≤ i.title.length) && decide (i.title.length ≤ 100) &&
  (match i.amount with
   | none => false
   | some a => decide (a ≠ 0) && decide (a ≤ 1000000)) &&
  i.category_id.isSome && i.transaction_date.isSome &&
  (match i.notes with
   | none => true
   | some n => decide (n.length ≤ 500))

/-- The acceptance condition as the specification words it: the title
length is between 2 and 100, the amount parses to a nonzero number of
at most 1,000,000, the notes (when present) are at most 500 characters,
and a category and a date are supplied — and nothing else. -/
def specFormAccepts (i : TransactionFormInput) : Prop :=
  (2 ≤ i.title.length ∧ i.title.length ≤ 100) ∧
  (∃ a, i.amount = some a ∧ a ≠ 0 ∧ a ≤ 1000000) ∧
  (∀ n, i.notes = some n → n.length ≤ 500) ∧
  i.category_id.isSome = true ∧ i.transaction_date.isSome = true

/-- A user profile record (`UserProfile` of the firestore service). -/
structure UserProfile where
  id : String
  email : String
  fullName : Option String
deriving DecidableEq

/-- The result object of `migrateData`. -/
structure MigrateResult where
  success : Bool
  message : String
deriving DecidableEq

/-- Outcome of one database-context operation as the caller observes
it: whether the catch branch showed a destructive toast, and the value
returned (or the re-thrown error). -/
structure CtxOutcome (α : Type) where
  destructiveToast : Bool
  result : Except String α

/-- Facade `getTransactions`: on a backend failure the catch branch
toasts and returns the empty list. -/
def ctxGetTransactions (backend : Except String (List Transaction)) :
    CtxOutcome (List Transaction) :=
  match backend with
  | .ok ts => { destructiveToast := false, result := .ok ts }
  | .error _ => { destructiveToast := true, result := .ok [] }

/-- Facade `getCategories`: on failure, toast and empty list. -/
def ctxGetCategories (backend : Except String (List Category)) :
    CtxOutcome (List Category) :=
  match backend with
  | .ok cs => { destructiveToast := false, result := .ok cs }
  | .error _ => { destructiveToast := true, result := .ok [] }

/-- Facade `getBudgetGoals`: on failure, toast and empty list. -/
def ctxGetBudgetGoals (backend : Except String (List BudgetGoal)) :
    CtxOutcome (List BudgetGoal) :=
  match backend with
  | .ok gs => { destructiveToast := false, result := .ok gs }
  | .error _ => { destructiveToast := true, result := .ok [] }

/-- Facade `getFinancialSummary`: on success the totals are computed
from the fetched transactions; on failure the catch branch toasts and
returns `{ income: 0, expenses: 0, balance: 0 }`. -/
def ctxGetFinancialSummary (backend : Except String (List Transaction)) :
    CtxOutcome FinancialSummary :=
  match backend with
  | .ok ts => { destructiveToast := false, result := .ok (getFinancialSummaryCalc ts) }
  | .error _ =>
    { destructiveToast := true,
      result := .ok { income := 0, expenses := 0, balance := 0 } }

/-- Facade `getTransaction`: on failure, toast and re-throw. -/
def ctxGetTransaction (backend : Except String Transaction) : CtxOutcome Transaction :=
  match backend with
  | .ok t => { destructiveToast := false, result := .ok t }
  | .error e => { destructiveToast := true, result := .error e }

/-- Facade `createTransaction`: on failure, toast and re-throw. -/
def ctxCreateTransaction (backend : Except String Transaction) : CtxOutcome Transaction :=
  match backend with
  | .ok t => { destructiveToast := false, result := .ok t }
  | .error e => { destructiveToast := true, result := .error e }

/-- Facade `updateTransaction`: on failure, toast and re-throw. -/
def ctxUpdateTransaction (backend : Except String Transaction) : CtxOutcome Transaction :=
  match backend with
  | .ok t => { destructiveToast := false, result := .ok t }
  | .error e => { destructiveToast := true, result := .error e }

/-- Facade `deleteTransaction`: on failure, toast and re-throw. -/
def ctxDeleteTransaction (backend : Except String Unit) : CtxOutcome Unit :=
  match backend with
  | .ok u => { destructiveToast := false, result := .ok u }
  | .error e => { destructiveToast := true, result := .error e }

/-- Facade `getCategory`: on failure, toast and re-throw. -/
def ctxGetCategory (backend : Except String Category) : CtxOutcome Category :=
  match backend with
  | .ok c => { destructiveToast := false, result := .ok c }
  | .error e => { destructiveToast := true, result := .error e }

/-- Facade `createCategory`: on failure, toast and re-throw. -/
def ctxCreateCategory (backend : Except String Category) : CtxOutcome Category :=
  match backend with
  | .ok c => { destructiveToast := false, result := .ok c }
  | .error e => { destructiveToast := true, result := .error e }

/-- Facade `updateCategory`: on failure, toast and re-throw. -/
def ctxUpdateCategory (backend : Except String Category) : CtxOutcome Category :=
  match backend with
  | .ok c => { destructiveToast := false, result := .ok c }
  | .error e => { destructiveToast := true, result := .error e }

/-- Facade `deleteCategory`: on failure, toast and re-throw. -/
def ctxDeleteCategory (backend : Except String Unit) : CtxOutcome Unit :=
  match backend with
  | .ok u => { destructiveToast := false, result := .ok u }
  | .error e => { destructiveToast := true, result := .error e }

/-- Facade `getBudgetGoal`: on failure, toast and re-throw. -/
def ctxGetBudgetGoal (backend : Except String BudgetGoal) : CtxOutcome BudgetGoal :=
  match backend with
  | .ok g => { destructiveToast := false, result := .ok g }
  | .error e => { destructiveToast := true, result := .error e }

/-- Facade `createBudgetGoal`: on failure, toast and re-throw. -/
def ctxCreateBudgetGoal (backend : Except String BudgetGoal) : CtxOutcome BudgetGoal :=
  match backend with
  | .ok g => { destructiveToast := false, result := .ok g }
  | .error e => { destructiveToast := true, result := .error e }

/-- Facade `updateBudgetGoal`: on failure, toast and re-throw. -/
def ctxUpdateBudgetGoal (backend : Except String BudgetGoal) : CtxOutcome BudgetGoal :=
  match backend with
  | .ok g => { destructiveToast := false, result := .ok g }
  | .error e => { destructiveToast := true, result := .error e }

/-- Facade `deleteBudgetGoal`: on failure, toast and re-throw. -/
def ctxDeleteBudgetGoal (backend : Except String Unit) : CtxOutcome Unit :=
  match backend with
  | .ok u => { destructiveToast := false, result := .ok u }
  | .error e => { destructiveToast := true, result := .error e }

/-- Facade `getUserProfile`: on failure, toast and re-throw. -/
def ctxGetUserProfile (backend : Except String UserProfile) : CtxOutcome UserProfile :=
  match backend with
  | .ok p => { destructiveToast := false, result := .ok p }
  | .error e => { destructiveToast := true, result := .error e }

/-- Facade `updateUserProfile`: on failure, toast and re-throw. -/
def ctxUpdateUserProfile (backend : Except String UserProfile) : CtxOutcome UserProfile :=
  match backend with
  | .ok p => { destructiveToast := false, result := .ok p }
  | .error e => { destructiveToast := true, result := .error e }

/-- Facade `migrateData`: the catch branch logs, shows no toast, and
returns `{ success: false, message: "Data migration failed" }` instead
of re-throwing. -/
def ctxMigrateData (backend : Except String MigrateResult) : CtxOutcome MigrateResult :=
  match backend with
  | .ok r => { destructiveToast := false, result := .ok r }
  | .error _ =>
    { destructiveToast := false,
      result := .ok { success := false, message := "Data migration failed" } }

/-- `AIInsights.generateInsights`, current-month total: the `forEach`
adds the absolute value of every strictly negative amount to
`currentMonthTotal`. -/
def currentMonthTotalOf (txs : List Transaction) : ℚ :=
  txs.foldl (fun tot t => if t.amount < 0 then tot + |t.amount| else tot) 0

/-- `AIInsights.generateInsights`, previous-month total:
`filter(amount < 0).reduce(sum + |amount|, 0)`. -/
def previousMonthTotalOf (txs : List Transaction) : ℚ :=
  (txs.filter (fun t => t.amount < 0)).foldl (fun s t => s + |t.amount|) 0

/-- The month-over-month delta of `AIInsights.generateInsights`:
`previousMonthTotal > 0 ? ((current - previous) / previous) * 100 : 0`. -/
def monthlyChangeOf (cur prev : List Transaction) : ℚ :=
  let c := currentMonthTotalOf cur
  let p := previousMonthTotalOf prev
  if p > 0 then ((c - p) / p) * 100 else 0

/-- Result row of `budgetGoalService.getBudgetProgress`; `percentage`
is `none` when the JavaScript division produced a non-finite value
(goal amount zero). -/
structure BudgetProgress where
  spent : ℚ
  remaining : ℚ
  percentage : Option ℚ
deriving DecidableEq

/-- `budgetGoalService.getBudgetProgress` for one budget goal: the
transactions of the goal category inside the computed period
`[startD, endD]` are fetched through `transactionService.getTransactions`,
`spent` accumulates `Math.abs(amount < 0 ? amount : 0)`, `remaining` is
`goal.amount - spent`, and `percentage` is `(spent / goal.amount) * 100`
(computed with no guard on a zero goal amount and no cap). -/
def budgetProgressFor (goal : BudgetGoal) (ordered : List Transaction) (startD endD : Int) :
    BudgetProgress :=
  let fetched := (fsGetTransactions ordered
    { categoryId := some goal.categoryId, startDate := some startD,
      endDate := some endD }).1
  let spent := fetched.foldl (fun tot t => tot + |if t.amount < 0 then t.amount else 0|) 0
  { spent := spent
    remaining := goal.amount - spent
    percentage := if goal.amount = 0 then none else some ((spent / goal.amount) * 100) }

/-- `BudgetSummary.fetchBudgetSummary`, total budget:
`budgetGoals.reduce((sum, goal) => sum + goal.amount, 0)`. -/
def totalBudgetOf (goals : List BudgetGoal) : ℚ :=
  goals.foldl (fun s g => s + g.amount) 0

/-- `BudgetSummary.fetchBudgetSummary`, total spent:
`transactions.reduce((sum, tx) => sum + (tx.amount < 0 ? Math.abs(tx.amount) : 0), 0)`. -/
def totalSpentOf (txs : List Transaction) : ℚ :=
  txs.foldl (fun s t => s + (if t.amount < 0 then |t.amount| else 0)) 0

/-- `BudgetSummary.fetchBudgetSummary`, percentage before the cap:
`totalBudget > 0 ? (totalSpent / totalBudget) * 100 : 0`. -/
def percentageSpentOf (goals : List BudgetGoal) (txs : List Transaction) : ℚ :=
  let b := totalBudgetOf goals
  let s := totalSpentOf txs
  if b > 0 then (s / b) * 100 else 0

/-- The percentage the budget summary stores and displays:
`Math.min(percentageSpent, 100)`. -/
def displayedPercentageSpent (goals : List BudgetGoal) (txs : List Transaction) : ℚ :=
  min (percentageSpentOf goals txs) 100

/-- A transaction of the concrete five-element stored list used to
refute the unconditional replay-offset equivalence. -/
def ctx3Tx (k : Nat) : Transaction :=
  { id := toString k, userId := "u", title := "t", amount := 1, categoryId := "c",
    transactionDate := 100 - (k : Int), notes := none }

/-- Five stored transactions (ordered by descending date). -/
def ctx3List : List Transaction :=
  [ctx3Tx 0, ctx3Tx 1, ctx3Tx 2, ctx3Tx 3, ctx3Tx 4]

/-- Twelve stored transactions (ordered by descending date), enough for
two full pages; used to witness the amended pagination claim. -/
def ctx3LongList : List Transaction :=
  [ctx3Tx 0, ctx3Tx 1, ctx3Tx 2, ctx3Tx 3, ctx3Tx 4, ctx3Tx 5, ctx3Tx 6, ctx3Tx 7,
   ctx3Tx 8, ctx3Tx 9, ctx3Tx 10, ctx3Tx 11]

theorem foldl_abs_neg_eq (txs : List Transaction) (init : ℚ) :
    txs.foldl (fun tot t => if t.amount < 0 then tot + |t.amount| else tot) init
      = init + ((txs.filter (fun t => t.amount < 0)).map (fun t => |t.amount|)).sum := by
  induction txs generalizing init with
  | nil => simp
  | cons t ts ih =>
    by_cases h : t.amount < 0
    · simp [List.foldl_cons, List.filter_cons, h, ih]
      ring
    · simp [List.foldl_cons, List.filter_cons, h, ih]

theorem foldl_add_abs_eq (txs : List Transaction) (init : ℚ) :
    txs.foldl (fun s t => s + |t.amount|) init
      = init + (txs.map (fun t => |t.amount|)).sum := by
  induction txs generalizing init with
  | nil => simp
  | cons t ts ih =>
    simp [List.foldl_cons, ih]
    ring

theorem foldl_spent_eq (l : List Transaction) (init : ℚ) :
    l.foldl (fun tot t => tot + |if t.amount < 0 then t.amount else 0|) init
      = init + ((l.filter (fun t => t.amount < 0)).map (fun t => |t.amount|)).sum := by
  induction l generalizing init with
  | nil => simp
  | cons t ts ih =>
    by_cases h : t.amount < 0
    · simp [List.foldl_cons, List.filter_cons, h, ih]
      ring
    · simp [List.foldl_cons, List.filter_cons, h, ih]

theorem foldl_budget_spent_eq (l : List Transaction) (init : ℚ) :
    l.foldl (fun s t => s + (if t.amount < 0 then |t.amount| else 0)) init
      = init + ((l.filter (fun t => t.amount < 0)).map (fun t => |t.amount|)).sum := by
  induction l generalizing init with
  | nil => simp
  | cons t ts ih =>
    by_cases h : t.amount < 0
    · simp [List.foldl_cons, List.filter_cons, h, ih]
      ring
    · simp [List.foldl_cons, List.filter_cons, h, ih]

theorem foldl_budget_total_eq (goals : List BudgetGoal) (init : ℚ) :
    goals.foldl (fun s g => s + g.amount) init
      = init + (goals.map (fun g => g.amount)).sum := by
  induction goals generalizing init with
  | nil => simp
  | cons g gs ih =>
    simp [List.foldl_cons, ih]
    ring

theorem summary_fold_characterization (txs : List Transaction) (i e : ℚ) :
    txs.foldl
        (fun s t => if t.amount > 0 then (s.1 + t.amount, s.2) else (s.1, s.2 + |t.amount|))
        (i, e)
      = (i + ((txs.filter (fun t => t.amount > 0)).map (fun t => t.amount)).sum,
         e + ((txs.filter (fun t => t.amount ≤ 0)).map (fun t => |t.amount|)).sum) := by
  induction txs generalizing i e with
  | nil => simp
  | cons t ts ih =>
    by_cases h : t.amount > 0
    · have h2 : ¬ t.amount ≤ 0 := not_le.mpr h
      simp [List.foldl_cons, List.filter_cons, h, h2, ih]
      ring
    · have h2 : t.amount ≤ 0 := not_lt.mp h
      simp [List.foldl_cons, List.filter_cons, h, h2, ih]
      ring

theorem filter_sum_split (txs : List Transaction) :
    ((txs.filter (fun t => t.amount > 0)).map (fun t => t.amount)).sum
      - ((txs.filter (fun t => t.amount ≤ 0)).map (fun t => |t.amount|)).sum
      = (txs.map (fun t => t.amount)).sum := by
  induction txs with
  | nil => simp
  | cons t ts ih =>
    by_cases h : t.amount > 0
    · have h2 : ¬ t.amount ≤ 0 := not_le.mpr h
      simp [List.filter_cons, h, h2]
      linarith
    · have h2 : t.amount ≤ 0 := not_lt.mp h
      have h3 : |t.amount| = -t.amount := abs_of_nonpos h2
      simp [List.filter_cons, h, h2, h3]
      linarith

/-- C1: the two facade branches are not interchangeable: the
document-store branches of `createTransaction`, `createCategory`,
`createBudgetGoal`, `getUserProfile` and `updateUserProfile` invoke
methods the firestore services do not define (the services define
`addTransaction`, `addCategory`, `addBudgetGoal`, `getProfile`,
`updateProfile`), and `getTransactions` returns an array of records in
relational mode but the `{ transactions, lastDoc }` page object in
document mode. -/
theorem facade_backend_interchangeability_violation :
    ("transactionService", "createTransaction") ∈ facadeFirestoreCalls ∧
    "createTransaction" ∉ transactionServiceMethods ∧
    ("categoryService", "createCategory") ∈ facadeFirestoreCalls ∧
    "createCategory" ∉ categoryServiceMethods ∧
    ("budgetGoalService", "createBudgetGoal") ∈ facadeFirestoreCalls ∧
    "createBudgetGoal" ∉ budgetGoalServiceMethods ∧
    ("userProfileService", "getUserProfile") ∈ facadeFirestoreCalls ∧
    "getUserProfile" ∉ userProfileServiceMethods ∧
    ("userProfileService", "updateUserProfile") ∈ facadeFirestoreCalls ∧
    "updateUserProfile" ∉ userProfileServiceMethods ∧
    facadeGetTransactionsShape DatabaseType.supabase ≠
      facadeGetTransactionsShape DatabaseType.firestore := by
  decide

/-- C2: the payload built by `TransactionForm.onSubmit` carries an
amount that is minus the absolute value of the entered amount for an
expense category and plus the absolute value otherwise, so (for the
nonzero amounts the validation admits) stored expenses are negative and
stored income is positive. -/
theorem transaction_amount_sign_adjustment (c : Category) (title : String) (a : ℚ)
    (tdate : Int) (notes : Option String) (ha : a ≠ 0) :
    (c.ctype = "expense" →
      (buildTransactionData c title a tdate notes).amount = -|a| ∧
      (buildTransactionData c title a tdate notes).amount < 0) ∧
    (c.ctype ≠ "expense" →
      (buildTransactionData c title a tdate notes).amount = |a| ∧
      0 < (buildTransactionData c title a tdate notes).amount) := by
  constructor
  · intro h
    constructor
    · simp [buildTransactionData, onSubmitAmount, h]
    · simp [buildTransactionData, onSubmitAmount, h]
      exact ha
  · intro h
    constructor
    · simp [buildTransactionData, onSubmitAmount, h]
    · simp [buildTransactionData, onSubmitAmount, h]
      exact ha

theorem transaction_amount_sign_adjustment_witness :
    (buildTransactionData { id := "c1", name := "Food", ctype := "expense" }
        "Groceries" 50 0 none).amount = -|(50 : ℚ)| ∧
    (buildTransactionData { id := "c1", name := "Food", ctype := "expense" }
        "Groceries" 50 0 none).amount < 0 :=
  (transaction_amount_sign_adjustment { id := "c1", name := "Food", ctype := "expense" }
    "Groceries" 50 0 none (by norm_num)).1 rfl

/-- C5 counterexample: `migrateData` is a database-context operation
whose catch branch neither shows a destructive toast nor re-throws — it
returns a `success: false` result — refuting the claim that every
operation surfaces its failure as a destructive toast and that every
mutating operation re-throws. -/
theorem migrate_data_failure_counterexample :
    (ctxMigrateData (Except.error ("backend failure"))).destructiveToast = false ∧
    (ctxMigrateData (Except.error ("backend failure"))).result =
      Except.ok { success := false, message := "Data migration failed" } :=
  ⟨rfl, rfl⟩

/-- C5 amended: every database-context operation except `migrateData`
catches a backend failure in that call and shows a destructive toast,
with no retry; on failure the list operations return the empty list,
`getFinancialSummary` returns zero income, expenses and balance, and
the single-record and mutating operations re-throw; `migrateData`
catches its failure but shows no toast and returns a failure result
instead of re-throwing. -/
theorem context_error_handling_amended (e : String) :
    ((ctxGetTransactions (.error e)).destructiveToast = true ∧
      (ctxGetTransactions (.error e)).result = .ok []) ∧
    ((ctxGetCategories (.error e)).destructiveToast = true ∧
      (ctxGetCategories (.error e)).result = .ok []) ∧
    ((ctxGetBudgetGoals (.error e)).destructiveToast = true ∧
      (ctxGetBudgetGoals (.error e)).result = .ok []) ∧
    ((ctxGetFinancialSummary (.error e)).destructiveToast = true ∧
      (ctxGetFinancialSummary (.error e)).result =
        .ok { income := 0, expenses := 0, balance := 0 }) ∧
    ((ctxGetTransaction (.error e)).destructiveToast = true ∧
      (ctxGetTransaction (.error e)).result = .error e) ∧
    ((ctxCreateTransaction (.error e)).destructiveToast = true ∧
      (ctxCreateTransaction (.error e)).result = .error e) ∧
    ((ctxUpdateTransaction (.error e)).destructiveToast = true ∧
      (ctxUpdateTransaction (.error e)).result = .error e) ∧
    ((ctxDeleteTransaction (.error e)).destructiveToast = true ∧
      (ctxDeleteTransaction (.error e)).result = .error e) ∧
    ((ctxGetCategory (.error e)).destructiveToast = true ∧
      (ctxGetCategory (.error e)).result = .error e) ∧
    ((ctxCreateCategory (.error e)).destructiveToast = true ∧
      (ctxCreateCategory (.error e)).result = .error e) ∧
    ((ctxUpdateCategory (.error e)).destructiveToast = true ∧
      (ctxUpdateCategory (.error e)).result = .error e) ∧
    ((ctxDeleteCategory (.error e)).destructiveToast = true ∧
      (ctxDeleteCategory (.error e)).result = .error e) ∧
    ((ctxGetBudgetGoal (.error e)).destructiveToast = true ∧
      (ctxGetBudgetGoal (.error e)).result = .error e) ∧
    ((ctxCreateBudgetGoal (.error e)).destructiveToast = true ∧
      (ctxCreateBudgetGoal (.error e)).result = .error e) ∧
    ((ctxUpdateBudgetGoal (.error e)).destructiveToast = true ∧
      (ctxUpdateBudgetGoal (.error e)).result = .error e) ∧
    ((ctxDeleteBudgetGoal (.error e)).destructiveToast = true ∧
      (ctxDeleteBudgetGoal (.error e)).result = .error e) ∧
    ((ctxGetUserProfile (.error e)).destructiveToast = true ∧
      (ctxGetUserProfile (.error e)).result = .error e) ∧
    ((ctxUpdateUserProfile (.error e)).destructiveToast = true ∧
      (ctxUpdateUserProfile (.error e)).result = .error e) ∧
    ((ctxMigrateData (.error e)).destructiveToast = false ∧
      (ctxMigrateData (.error e)).result =
        .ok { success := false, message := "Data migration failed" }) :=
  ⟨⟨rfl, rfl⟩, ⟨rfl, rfl⟩, ⟨rfl, rfl⟩, ⟨rfl, rfl⟩, ⟨rfl, rfl⟩, ⟨rfl, rfl⟩, ⟨rfl, rfl⟩,
   ⟨rfl, rfl⟩, ⟨rfl, rfl⟩, ⟨rfl, rfl⟩, ⟨rfl, rfl⟩, ⟨rfl, rfl⟩, ⟨rfl, rfl⟩, ⟨rfl, rfl⟩,
   ⟨rfl, rfl⟩, ⟨rfl, rfl⟩, ⟨rfl, rfl⟩, ⟨rfl, rfl⟩, ⟨rfl, rfl⟩⟩

/-- C6: the month-over-month delta of the insights generator is
`((current - previous) / previous) * 100` when the previous-month total
is positive and `0` otherwise, where each month total is the sum of the
absolute values of the negative amounts of that month. -/
theorem insights_monthly_change_formula (cur prev : List Transaction) :
    currentMonthTotalOf cur
      = ((cur.filter (fun t => t.amount < 0)).map (fun t => |t.amount|)).sum ∧
    previousMonthTotalOf prev
      = ((prev.filter (fun t => t.amount < 0)).map (fun t => |t.amount|)).sum ∧
    monthlyChangeOf cur prev =
      (if previousMonthTotalOf prev > 0 then
        ((currentMonthTotalOf cur - previousMonthTotalOf prev) / previousMonthTotalOf prev)
          * 100
       else 0) := by
  refine ⟨?_, ?_, rfl⟩
  · simpa using foldl_abs_neg_eq cur 0
  · have h := foldl_add_abs_eq (prev.filter (fun t => t.amount < 0)) 0
    simpa [previousMonthTotalOf] using h

/-- C9: the summary computed by the firestore service and by the
database context has income equal to the sum of the positive amounts,
expenses equal to the sum of the absolute values of the non-positive
amounts, both nonnegative, and balance equal to income minus expenses,
which equals the plain sum of all amounts; the two computations agree. -/
theorem summary_algebraic_identities (txs : List Transaction) :
    (getTransactionSummary txs).income
      = ((txs.filter (fun t => t.amount > 0)).map (fun t => t.amount)).sum ∧
    (getTransactionSummary txs).expenses
      = ((txs.filter (fun t => t.amount ≤ 0)).map (fun t => |t.amount|)).sum ∧
    0 ≤ (getTransactionSummary txs).income ∧
    0 ≤ (getTransactionSummary txs).expenses ∧
    (getTransactionSummary txs).balance
      = (getTransactionSummary txs).income - (getTransactionSummary txs).expenses ∧
    (getTransactionSummary txs).balance = (txs.map (fun t => t.amount)).sum ∧
    getFinancialSummaryCalc txs = getTransactionSummary txs := by
  have hpair : summaryTotals txs
      = (((txs.filter (fun t => t.amount > 0)).map (fun t => t.amount)).sum,
         ((txs.filter (fun t => t.amount ≤ 0)).map (fun t => |t.amount|)).sum) := by
    unfold summaryTotals
    rw [summary_fold_characterization]
    simp
  have hinc : (getTransactionSummary txs).income
      = ((txs.filter (fun t => t.amount > 0)).map (fun t => t.amount)).sum := by
    show (summaryTotals txs).1 = _
    rw [hpair]
  have hexp : (getTransactionSummary txs).expenses
      = ((txs.filter (fun t => t.amount ≤ 0)).map (fun t => |t.amount|)).sum := by
    show (summaryTotals txs).2 = _
    rw [hpair]
  refine ⟨hinc, hexp, ?_, ?_, ?_, ?_, rfl⟩
  · rw [hinc]
    apply List.sum_nonneg
    intro x hx
    obtain ⟨t, ht, rfl⟩ := List.mem_map.mp hx
    have := List.of_mem_filter ht
    have hpos : t.amount > 0 := by simpa using this
    exact le_of_lt hpos
  · rw [hexp]
    apply List.sum_nonneg
    intro x hx
    obtain ⟨t, ht, rfl⟩ := List.mem_map.mp hx
    exact abs_nonneg _
  · simp [getTransactionSummary]
  · have : (getTransactionSummary txs).balance
        = (getTransactionSummary txs).income - (getTransactionSummary txs).expenses := by
      simp [getTransactionSummary]
    rw [this, hinc, hexp]
    exact filter_sum_split txs

/-- C7: the zod form schema accepts an input exactly when the title
length is between 2 and 100, the amount string converts to a nonzero
number of at most 1,000,000, the notes (when present) are at most 500
characters, and a category and a date are supplied; in particular there
is no lower bound on the amount (the schema accepts -2,000,000). -/
theorem form_validation_characterization :
    (∀ i : TransactionFormInput, formSchemaAccepts i = true ↔ specFormAccepts i) ∧
    formSchemaAccepts
      { title := "Rent", amount := some (-2000000), category_id := some ("c1"),
        transaction_date := some 0, notes := none } = true := by
  constructor
  · intro i
    obtain ⟨title, amount, categoryId, tdate, notes⟩ := i
    cases amount with
    | none =>
      simp [formSchemaAccepts, specFormAccepts]
    | some a =>
      cases notes with
      | none =>
        simp [formSchemaAccepts, specFormAccepts, and_assoc]
      | some n =>
        simp [formSchemaAccepts, specFormAccepts, and_assoc]
        intro _ _ _ _
        constructor
        · rintro ⟨h1, h2, h3⟩
          exact ⟨h3, h1, h2⟩
        · rintro ⟨h1, h2, h3⟩
          exact ⟨h2, h3, h1⟩
  · decide

/-- C8: every valid submission of the transaction form fails to create
a transaction: the handler destructures `addTransaction` from the
database context, but the context value exposes `createTransaction` and
carries no `addTransaction` key, so the call throws and the catch
branch shows the destructive toast instead of the success toast. -/
theorem form_submit_create_binding_missing :
    "addTransaction" ∉ databaseContextKeys ∧
    "createTransaction" ∈ databaseContextKeys ∧
    onSubmitOutcome databaseContextKeys [{ id := "c1", name := "Food", ctype := "expense" }]
      "c1" "Groceries" 50 0 none = SubmitOutcome.errorToast := by
  refine ⟨by decide, by decide, ?_⟩
  rfl

/-- C4: for a budget goal (with nonzero goal amount, so that the
JavaScript quotient is a finite number), `getBudgetProgress` reports
`spent` equal to the sum of the absolute values of the negative-amount
transactions of the goal category in the computed period (positive
amounts contribute zero), `remaining` equal to the goal amount minus
`spent`, and `percentage` equal to `(spent / amount) * 100`. -/
theorem budget_progress_formulas (goal : BudgetGoal) (ordered : List Transaction)
    (startD endD : Int) (h : goal.amount ≠ 0) :
    (budgetProgressFor goal ordered startD endD).spent =
      ((((fsGetTransactions ordered
          { categoryId := some goal.categoryId, startDate := some startD,
            endDate := some endD }).1).filter (fun t => t.amount < 0)).map
        (fun t => |t.amount|)).sum ∧
    (budgetProgressFor goal ordered startD endD).remaining =
      goal.amount - (budgetProgressFor goal ordered startD endD).spent ∧
    (budgetProgressFor goal ordered startD endD).percentage =
      some (((budgetProgressFor goal ordered startD endD).spent / goal.amount) * 100) := by
  refine ⟨?_, ?_, ?_⟩
  · show (_ : List Transaction).foldl _ 0 = _
    rw [foldl_spent_eq]
    simp
  · rfl
  · show (if goal.amount = 0 then none else some _) = _
    rw [if_neg h]
    rfl

theorem budget_progress_formulas_witness :
    (budgetProgressFor { id := "g1", categoryId := "c", amount := 100 }
        [{ id := "t1", userId := "u", title := "x", amount := -20, categoryId := "c",
           transactionDate := 0, notes := none }] (-1) 1).percentage =
      some (((budgetProgressFor { id := "g1", categoryId := "c", amount := 100 }
        [{ id := "t1", userId := "u", title := "x", amount := -20, categoryId := "c",
           transactionDate := 0, notes := none }] (-1) 1).spent /
        ({ id := "g1", categoryId := "c", amount := 100 } : BudgetGoal).amount) * 100) :=
  (budget_progress_formulas { id := "g1", categoryId := "c", amount := 100 }
    [{ id := "t1", userId := "u", title := "x", amount := -20, categoryId := "c",
       transactionDate := 0, notes := none }] (-1) 1 (by norm_num)).2.2

/-- C10: under nonnegative goal amounts, the percentage displayed by
the budget summary lies in [0, 100] — it is 0 when the total budget is
0 (the division is guarded) and otherwise the capped
`min((totalSpent / totalBudget) * 100, 100)` — whereas the percentage
of the firestore `getBudgetProgress` is uncapped (it reaches 200) and
unguarded (a zero goal amount yields a non-finite value, modelled as
`none`). -/
theorem budget_summary_percentage_bounds :
    (∀ (goals : List BudgetGoal) (txs : List Transaction),
      (∀ g ∈ goals, 0 ≤ g.amount) →
      0 ≤ displayedPercentageSpent goals txs ∧
      displayedPercentageSpent goals txs ≤ 100 ∧
      (totalBudgetOf goals = 0 → displayedPercentageSpent goals txs = 0) ∧
      (totalBudgetOf goals ≠ 0 →
        displayedPercentageSpent goals txs =
          min ((totalSpentOf txs / totalBudgetOf goals) * 100) 100)) ∧
    (budgetProgressFor { id := "g", categoryId := "c", amount := 10 }
        [{ id := "t", userId := "u", title := "x", amount := -20, categoryId := "c",
           transactionDate := 0, notes := none }] 0 0).percentage = some 200 ∧
    (budgetProgressFor { id := "g", categoryId := "c", amount := 0 } [] 0 0).percentage
      = none := by
  refine ⟨?_, ?_, ?_⟩
  case refine_2 =>
    show (if (10 : ℚ) = 0 then none else some _) = _
    rw [if_neg (by norm_num)]
    congr 1
    show (List.foldl (fun tot t => tot + |if t.amount < 0 then t.amount else 0|) 0
      (fsGetTransactions _ _).1) / (10 : ℚ) * 100 = 200
    norm_num [fsGetTransactions, applyFilters, startAfterDoc]
  case refine_3 => rfl
  intro goals txs hg
  have hspent : 0 ≤ totalSpentOf txs := by
    unfold totalSpentOf
    rw [foldl_budget_spent_eq]
    simp only [zero_add]
    apply List.sum_nonneg
    intro x hx
    obtain ⟨t, ht, rfl⟩ := List.mem_map.mp hx
    exact abs_nonneg _
  have hbudget : 0 ≤ totalBudgetOf goals := by
    unfold totalBudgetOf
    rw [foldl_budget_total_eq]
    simp only [zero_add]
    apply List.sum_nonneg
    intro x hx
    obtain ⟨g, hgm, rfl⟩ := List.mem_map.mp hx
    exact hg g hgm
  have hpct : 0 ≤ percentageSpentOf goals txs := by
    unfold percentageSpentOf
    by_cases hb : totalBudgetOf goals > 0
    · rw [if_pos hb]
      positivity
    · rw [if_neg hb]
  refine ⟨?_, ?_, ?_, ?_⟩
  · exact le_min hpct (by norm_num)
  · exact min_le_right _ _
  · intro hzero
    unfold displayedPercentageSpent percentageSpentOf
    rw [hzero]
    simp
  · intro hnz
    have hpos : totalBudgetOf goals > 0 := lt_of_le_of_ne hbudget (Ne.symm hnz)
    unfold displayedPercentageSpent percentageSpentOf
    rw [if_pos hpos]

theorem budget_summary_percentage_bounds_witness :
    0 ≤ displayedPercentageSpent [{ id := "g", categoryId := "c", amount := 10 }]
        [{ id := "t", userId := "u", title := "x", amount := -5, categoryId := "c",
           transactionDate := 0, notes := none }] ∧
    displayedPercentageSpent [{ id := "g", categoryId := "c", amount := 10 }]
        [{ id := "t", userId := "u", title := "x", amount := -5, categoryId := "c",
           transactionDate := 0, notes := none }] ≤ 100 :=
  ⟨(budget_summary_percentage_bounds.1 [{ id := "g", categoryId := "c", amount := 10 }]
      [{ id := "t", userId := "u", title := "x", amount := -5, categoryId := "c",
         transactionDate := 0, notes := none }] (by decide)).1,
   (budget_summary_percentage_bounds.1 [{ id := "g", categoryId := "c", amount := 10 }]
      [{ id := "t", userId := "u", title := "x", amount := -5, categoryId := "c",
         transactionDate := 0, notes := none }] (by decide)).2.1⟩

theorem dropWhile_ne_append (l1 l2 : List Transaction) (d : Transaction) (h : d ∉ l1) :
    (l1 ++ d :: l2).dropWhile (fun t => t ≠ d) = d :: l2 := by
  induction l1 with
  | nil =>
    rw [List.nil_append, List.dropWhile_cons]
    simp
  | cons a l1 ih =>
    have had : a ≠ d := by
      intro e
      exact h (e ▸ List.mem_cons_self a l1)
    rw [List.cons_append, List.dropWhile_cons]
    simp [had]
    simpa using ih (fun hm => h (List.mem_cons_of_mem a hm))

theorem startAfterDoc_split (l1 l2 : List Transaction) (d : Transaction) (h : d ∉ l1) :
    startAfterDoc (l1 ++ d :: l2) (some d) = l2 := by
  show ((l1 ++ d :: l2).dropWhile (fun t => t ≠ d)).drop 1 = l2
  rw [dropWhile_ne_append _ _ _ h]
  simp

theorem startAfterDoc_at_index (l : List Transaction) (i : Nat) (hi : i < l.length)
    (hnd : l.Nodup) :
    startAfterDoc l (some l[i]) = l.drop (i + 1) := by
  obtain ⟨d, hd⟩ : ∃ d, d = l[i] := ⟨_, rfl⟩
  rw [← hd]
  have hsplit : l.take i ++ d :: l.drop (i + 1) = l := by
    rw [hd, ← List.drop_eq_getElem_cons hi, List.take_append_drop]
  have hnotmem : d ∉ l.take i := by
    intro hm
    have hdisj := List.disjoint_take_drop hnd (le_refl i)
    have hmem_drop : d ∈ l.drop i := by
      rw [List.drop_eq_getElem_cons hi, hd]
      exact List.mem_cons_self _ _
    exact hdisj hm hmem_drop
  conv_lhs => rw [← hsplit]
  exact startAfterDoc_split _ _ _ hnotmem

theorem replay_cursor_invariant (l : List Transaction) (hnd : l.Nodup) :
    ∀ k : Nat, pageSize * k ≤ l.length →
      startAfterDoc l (replayLoop l k) = l.drop (pageSize * k) := by
  intro k
  induction k with
  | zero =>
    intro _
    simp [replayLoop, startAfterDoc]
  | succ k ih =>
    intro hk
    have hk0 : pageSize * k ≤ l.length := by
      have hmono : pageSize * k ≤ pageSize * (k + 1) :=
        Nat.mul_le_mul_left _ (Nat.le_succ k)
      omega
    have ihh := ih hk0
    have h9 : pageSize * k + 9 < l.length := by
      simp only [pageSize] at hk ⊢
      omega
    have hlen10 : ((l.drop (pageSize * k)).take pageSize).length = pageSize := by
      apply List.length_take_of_le
      rw [List.length_drop]
      simp only [pageSize] at hk ⊢
      omega
    have hq : ((l.drop (pageSize * k)).take pageSize).getLast?
        = some (l[pageSize * k + 9]) := by
      rw [List.getLast?_eq_getElem?, hlen10]
      rw [List.getElem?_take_of_lt (show pageSize - 1 < pageSize by simp [pageSize])]
      rw [List.getElem?_drop]
      have harith : pageSize * k + (pageSize - 1) = pageSize * k + 9 := by
        simp [pageSize]
      rw [harith]
      exact List.getElem?_eq_getElem h9
    have hstep : replayLoop l (k + 1) = some (l[pageSize * k + 9]) := by
      show ((startAfterDoc l (replayLoop l k)).take pageSize).getLast? = _
      rw [ihh, hq]
    show startAfterDoc l (replayLoop l (k + 1)) = l.drop (pageSize * (k + 1))
    rw [hstep, startAfterDoc_at_index l (pageSize * k + 9) h9 hnd]
    congr 1

/-- C3 amended: provided the ordered transaction list has at least
(n-1) * pageSize records, a page n > 1 requested without a cached
cursor is reached by n-1 replay queries, each returning a full page of
pageSize (10) records and chaining after the last document of the
previous page, and the page finally fetched equals the offset slice: drop
(n-1)*10 records, take the next 10. -/
theorem replay_pagination_eq_offset (l : List Transaction) (n : Nat) (hnd : l.Nodup)
    (hn : 1 < n) (hlen : pageSize * (n - 1) ≤ l.length) :
    (∀ i, i < n - 1 →
      ((fsGetTransactions l { queryLimit := some pageSize, lastDoc := replayLoop l i }).1).length
        = pageSize) ∧
    fetchTransactionsPage l n = (l.drop (pageSize * (n - 1))).take pageSize := by
  constructor
  · intro i hi
    have hle : pageSize * i ≤ l.length := by
      have h2 : pageSize * (i + 1) ≤ pageSize * (n - 1) := Nat.mul_le_mul_left _ (by omega)
      simp only [pageSize] at h2 hlen ⊢
      omega
    have hinv := replay_cursor_invariant l hnd i hle
    show ((startAfterDoc l (replayLoop l i)).take pageSize).length = pageSize
    rw [hinv]
    apply List.length_take_of_le
    rw [List.length_drop]
    have h3 : pageSize * (i + 1) ≤ pageSize * (n - 1) := Nat.mul_le_mul_left _ (by omega)
    simp only [pageSize] at h3 hlen ⊢
    omega
  · have hinv := replay_cursor_invariant l hnd (n - 1) hlen
    show (if 1 < n then _ else _) = _
    rw [if_pos hn]
    show (startAfterDoc l (replayLoop l (n - 1))).take pageSize = _
    rw [hinv]

/-- C3 counterexample: with five stored transactions and page 3
requested without a cached cursor, the second replay query returns no
documents, the cursor resets, and the final query returns the first
five transactions again, while the offset slice (drop 20, take 10) is
empty — so replay-based pagination does not equal offset-based
pagination unconditionally. -/
theorem replay_pagination_counterexample :
    fetchTransactionsPage ctx3List 3 = ctx3List ∧
    (ctx3List.drop (pageSize * (3 - 1))).take pageSize = [] ∧
    ctx3List ≠ [] := by
  refine ⟨by decide, by decide, by decide⟩

theorem replay_pagination_eq_offset_witness :
    ctx3LongList.Nodup ∧
    fetchTransactionsPage ctx3LongList 2
      = (ctx3LongList.drop (pageSize * (2 - 1))).take pageSize :=
  ⟨by decide,
   (replay_pagination_eq_offset ctx3LongList 2 (by decide) (by decide) (by decide)).2⟩
